import Mathlib

/-!
Verification of the paper-trading core of the Fyers OHLC backend
(`app/paper_trading/{position,portfolio,engine,automated_trading}.py`).

Python floats are modelled as exact rationals (`ℚ`), Python `int` as `ℤ`,
`dict[str, Position]` as an insertion-ordered association list, and a raised
Python exception either as an `Option`/`Except` value or as the dedicated
`OrderResult.raised` constructor, kept distinct from an ordinary `REJECTED`
result.  Wall-clock fields (entry/exit timestamps, generated ids) influence
none of the verified properties and are omitted from the state.
-/

namespace PaperTrading

/-- `position.py` `PositionSide`. -/
inductive PositionSide where
  | LONG
  | SHORT
deriving DecidableEq, Repr

/-- `position.py` `Position` dataclass.  After `__post_init__`,
`current_price` is never `None` (it defaults to the entry price), so it is a
plain rational here. -/
structure Position where
  symbol : String
  side : PositionSide
  quantity : Int
  entry_price : ℚ
  current_price : ℚ
  exit_price : Option ℚ
  is_open : Bool
  stop_loss : Option ℚ
  target : Option ℚ
deriving DecidableEq, Repr

namespace Position

/-- `position.py` `Position.unrealized_pnl`. -/
def unrealized_pnl (p : Position) : ℚ :=
  if p.is_open = false then 0
  else
    match p.side with
    | PositionSide.LONG => (p.current_price - p.entry_price) * (p.quantity : ℚ)
    | PositionSide.SHORT => (p.entry_price - p.current_price) * (p.quantity : ℚ)

/-- `position.py` `Position.realized_pnl`. -/
def realized_pnl (p : Position) : ℚ :=
  if p.is_open then 0
  else
    match p.exit_price with
    | none => 0
    | some ex =>
      match p.side with
      | PositionSide.LONG => (ex - p.entry_price) * (p.quantity : ℚ)
      | PositionSide.SHORT => (p.entry_price - ex) * (p.quantity : ℚ)

/-- `position.py` `Position.update_price`. -/
def update_price (p : Position) (price : ℚ) : Position :=
  if p.is_open then { p with current_price := price } else p

/-- `position.py` `Position.close`.  Raising `ValueError` on an
already-closed position is modelled as `none`. -/
def close (p : Position) (exit_price : ℚ) : Option (Position × ℚ) :=
  if p.is_open then
    let p' : Position := { p with is_open := false, exit_price := some exit_price }
    some (p', p'.realized_pnl)
  else none

/-- `position.py` `Position.should_trigger_stop_loss`. -/
def should_trigger_stop_loss (p : Position) : Bool :=
  if p.is_open = false then false
  else
    match p.stop_loss with
    | none => false
    | some sl =>
      match p.side with
      | PositionSide.LONG => decide (p.current_price ≤ sl)
      | PositionSide.SHORT => decide (sl ≤ p.current_price)

/-- `position.py` `Position.should_trigger_target`. -/
def should_trigger_target (p : Position) : Bool :=
  if p.is_open = false then false
  else
    match p.target with
    | none => false
    | some t =>
      match p.side with
      | PositionSide.LONG => decide (t ≤ p.current_price)
      | PositionSide.SHORT => decide (p.current_price ≤ t)

end Position

/-- `portfolio.py` `Portfolio`.  The `positions` dict (symbol → open
position, insertion-ordered) becomes an association list whose keys the
engine keeps unique. -/
structure Portfolio where
  initial_capital : ℚ
  current_capital : ℚ
  positions : List (String × Position)
  closed_positions : List Position
  brokerage_per_trade : ℚ
  slippage_percent : ℚ
  total_brokerage_paid : ℚ
deriving DecidableEq, Repr

namespace Portfolio

/-- `portfolio.py` `Portfolio.invested_capital`. -/
def invested_capital (pf : Portfolio) : ℚ :=
  (pf.positions.map (fun sp => sp.2.entry_price * (sp.2.quantity : ℚ))).sum

/-- `portfolio.py` `Portfolio.unrealized_pnl`. -/
def unrealized_pnl (pf : Portfolio) : ℚ :=
  (pf.positions.map (fun sp => sp.2.unrealized_pnl)).sum

/-- `portfolio.py` `Portfolio.realized_pnl`. -/
def realized_pnl (pf : Portfolio) : ℚ :=
  (pf.closed_positions.map Position.realized_pnl).sum

/-- `portfolio.py` `Portfolio.total_pnl`. -/
def total_pnl (pf : Portfolio) : ℚ :=
  pf.realized_pnl + pf.unrealized_pnl

/-- `portfolio.py` `Portfolio.portfolio_value`. -/
def portfolio_value (pf : Portfolio) : ℚ :=
  pf.current_capital + pf.invested_capital + pf.unrealized_pnl

/-- `portfolio.py` `Portfolio.returns_percent`. -/
def returns_percent (pf : Portfolio) : ℚ :=
  ((pf.portfolio_value - pf.initial_capital) / pf.initial_capital) * 100

/-- `portfolio.py` `Portfolio.has_position`. -/
def has_position (pf : Portfolio) (symbol : String) : Bool :=
  pf.positions.any (fun sp => sp.1 == symbol)

/-- `portfolio.py` `Portfolio.get_position`; raising `ValueError` when the
symbol is absent is modelled as `none`. -/
def get_position (pf : Portfolio) (symbol : String) : Option Position :=
  (pf.positions.find? (fun sp => sp.1 == symbol)).map (fun sp => sp.2)

/-- `portfolio.py` `Portfolio.add_position`; raising `ValueError` when a
position already exists for the symbol is modelled as `none`. -/
def add_position (pf : Portfolio) (p : Position) : Option Portfolio :=
  if pf.has_position p.symbol then none
  else some { pf with positions := pf.positions ++ [(p.symbol, p)] }

/-- `portfolio.py` `Portfolio.remove_position`: pop the entry from the open
map and append it to `closed_positions`; raising `ValueError` when the
symbol is absent is modelled as `none`. -/
def remove_position (pf : Portfolio) (symbol : String) : Option (Portfolio × Position) :=
  match pf.get_position symbol with
  | none => none
  | some p =>
    some ({ pf with
              positions := pf.positions.eraseP (fun sp => sp.1 == symbol),
              closed_positions := pf.closed_positions ++ [p] }, p)

/-- `portfolio.py` `Portfolio.update_positions_price`. -/
def update_positions_price (pf : Portfolio) (symbol : String) (price : ℚ) : Portfolio :=
  if pf.has_position symbol then
    { pf with positions :=
        pf.positions.map (fun sp => if sp.1 == symbol then (sp.1, sp.2.update_price price) else sp) }
  else pf

/-- `portfolio.py` `Portfolio.apply_brokerage`. -/
def apply_brokerage (pf : Portfolio) : Portfolio × ℚ :=
  ({ pf with
      current_capital := pf.current_capital - pf.brokerage_per_trade,
      total_brokerage_paid := pf.total_brokerage_paid + pf.brokerage_per_trade },
   pf.brokerage_per_trade)

/-- `portfolio.py` `Portfolio.apply_slippage`. -/
def apply_slippage (pf : Portfolio) (price : ℚ) (is_buy : Bool) : ℚ :=
  if pf.slippage_percent = 0 then price
  else
    let slippage_amount := price * (pf.slippage_percent / 100)
    if is_buy then price + slippage_amount else price - slippage_amount

/-- Well-formedness the engine maintains on its portfolio: every mapped
position is open, and symbols are unique keys. -/
def WF (pf : Portfolio) : Prop :=
  (∀ sp ∈ pf.positions, sp.2.is_open = true) ∧ (pf.positions.map Prod.fst).Nodup

instance (pf : Portfolio) : Decidable pf.WF := by
  unfold WF
  infer_instance

end Portfolio

/-- `order.py` `OrderSide`.  `place_order` maps the string `"BUY"` to `BUY`
and every other string to `SELL`, so the enum covers all inputs. -/
inductive OrderSide where
  | BUY
  | SELL
deriving DecidableEq, Repr

/-- Outcome of `engine.py` `PaperTradingEngine.place_order`: the `REJECTED`
response dict, or the `SUCCESS` dict (keeping the executed price/quantity of
the order and the `position` entry, the created position for a BUY and the
closed position for a SELL), or an uncaught Python exception (`raised`),
which is neither of the two response dicts. -/
inductive OrderResult where
  | rejected (reason : String)
  | success (execution_price : ℚ) (executed_quantity : Int) (pos : Position)
  | raised (msg : String)
deriving DecidableEq, Repr

namespace OrderResult

/-- Whether the response dict has `status == "REJECTED"`. -/
def isRejected : OrderResult → Bool
  | .rejected _ => true
  | _ => false

/-- Whether the response dict has `status == "SUCCESS"`. -/
def isSuccess : OrderResult → Bool
  | .success _ _ _ => true
  | _ => false

/-- The order's executed quantity, for a successful result. -/
def executed_quantity : OrderResult → Option Int
  | .success _ q _ => some q
  | _ => none

end OrderResult

/-- `engine.py` `PaperTradingEngine`: the portfolio plus the risk limits.
The `orders`/`trades` histories only record dicts already present in the
results and are omitted. -/
structure Engine where
  portfolio : Portfolio
  max_positions : Nat
  max_position_size : ℚ
deriving DecidableEq, Repr

namespace Engine

/-- `engine.py` `PaperTradingEngine._execute_buy_order`. -/
def execute_buy_order (e : Engine) (symbol : String) (quantity : Int) (price : ℚ)
    (stop_loss target : Option ℚ) : Engine × OrderResult :=
  if e.portfolio.has_position symbol then
    (e, .rejected "Position already exists for this symbol")
  else if e.max_positions ≤ e.portfolio.positions.length then
    (e, .rejected "Maximum positions limit reached")
  else
    let execution_price := e.portfolio.apply_slippage price true
    let required_capital := execution_price * (quantity : ℚ)
    let max_allowed := e.portfolio.initial_capital * e.max_position_size
    if max_allowed < required_capital then
      (e, .rejected "Position size exceeds limit")
    else if e.portfolio.current_capital < required_capital + e.portfolio.brokerage_per_trade then
      (e, .rejected "Insufficient capital")
    else
      let pf1 := { e.portfolio with
                     current_capital := e.portfolio.current_capital - required_capital }
      let pf2 := pf1.apply_brokerage.1
      let pos : Position :=
        { symbol := symbol, side := PositionSide.LONG, quantity := quantity,
          entry_price := execution_price, current_price := execution_price,
          exit_price := none, is_open := true, stop_loss := stop_loss, target := target }
      match pf2.add_position pos with
      | none => (e, .raised "ValueError: Position already exists")
      | some pf3 => ({ e with portfolio := pf3 }, .success execution_price quantity pos)

/-- `engine.py` `PaperTradingEngine._execute_sell_order`.  The source closes
the looked-up position object in place (`position.close`), credits the
proceeds for the ordered quantity, charges brokerage, then pops the (now
closed) entry onto `closed_positions` via `remove_position`. -/
def execute_sell_order (e : Engine) (symbol : String) (quantity : Int) (price : ℚ) :
    Engine × OrderResult :=
  match e.portfolio.get_position symbol with
  | none => (e, .rejected "No open position to sell")
  | some position =>
    if position.quantity < quantity then
      (e, .rejected "Insufficient quantity")
    else
      let execution_price := e.portfolio.apply_slippage price false
      match position.close execution_price with
      | none => (e, .raised "ValueError: Position is already closed")
      | some pr =>
        let updated := e.portfolio.positions.map
          (fun sp => (sp.1, if sp.1 == symbol then pr.1 else sp.2))
        let pf1 := { e.portfolio with positions := updated }
        let proceeds := execution_price * (quantity : ℚ)
        let pf2 := { pf1 with current_capital := pf1.current_capital + proceeds }
        let pf3 := pf2.apply_brokerage.1
        match pf3.remove_position symbol with
        | none => (e, .raised "ValueError: No position found")
        | some pfp => ({ e with portfolio := pfp.1 }, .success execution_price quantity pr.1)

/-- `engine.py` `PaperTradingEngine.place_order`. -/
def place_order (e : Engine) (symbol : String) (side : OrderSide) (quantity : Int)
    (price : ℚ) (stop_loss target : Option ℚ) : Engine × OrderResult :=
  if quantity ≤ 0 then (e, .rejected "Quantity must be positive")
  else if price ≤ 0 then (e, .rejected "Price must be positive")
  else
    match side with
    | OrderSide.BUY => e.execute_buy_order symbol quantity price stop_loss target
    | OrderSide.SELL => e.execute_sell_order symbol quantity price

/-- `engine.py` `PaperTradingEngine.update_position_prices`. -/
def update_position_prices (e : Engine) (prices : List (String × ℚ)) : Engine :=
  { e with portfolio :=
      prices.foldl (fun pf sp => pf.update_positions_price sp.1 sp.2) e.portfolio }

/-- The `'trigger'` tag `check_stop_loss_targets` stamps on an auto order. -/
inductive Trigger where
  | STOP_LOSS
  | TARGET
deriving DecidableEq, Repr

/-- One iteration of the `engine.py` `check_stop_loss_targets` loop, for the
snapshotted entry `sp`: the stop-loss check first, `elif` the target check.
When a trigger fires, the `stop_loss`/`target` field is necessarily `some`,
so the `getD` default is never read. -/
def sweep_step (e : Engine) (sp : String × Position) : Engine × List (OrderResult × Trigger) :=
  if sp.2.should_trigger_stop_loss then
    let r := e.place_order sp.1 OrderSide.SELL sp.2.quantity (sp.2.stop_loss.getD 0) none none
    (r.1, [(r.2, Trigger.STOP_LOSS)])
  else if sp.2.should_trigger_target then
    let r := e.place_order sp.1 OrderSide.SELL sp.2.quantity (sp.2.target.getD 0) none none
    (r.1, [(r.2, Trigger.TARGET)])
  else (e, [])

/-- `engine.py` `PaperTradingEngine.check_stop_loss_targets`: iterate over a
snapshot (`list(...)`) of the open-position entries, threading the engine
state and accumulating the auto-executed orders. -/
def check_stop_loss_targets (e : Engine) : Engine × List (OrderResult × Trigger) :=
  e.portfolio.positions.foldl
    (fun acc sp =>
      let r := sweep_step acc.1 sp
      (r.1, acc.2 ++ r.2))
    (e, [])

end Engine

/-- `automated_trading.py` `StrategySignal`.  The `metadata` dict and the
wall-clock type of `timestamp` play no role in any verified property;
timestamps are abstracted to integers. -/
structure StrategySignal where
  strategy_name : String
  symbol : String
  signal : String
  price : ℚ
  timestamp : Int
  confidence : ℚ
deriving DecidableEq, Repr

/-- The BUY votes of the `aggregate_signals` tally loop, in input order. -/
def buy_side (signals : List StrategySignal) : List StrategySignal :=
  signals.filter (fun s => s.signal == "BUY")

/-- The SELL votes of the `aggregate_signals` tally loop, in input order.
Votes that are neither `"BUY"` nor `"SELL"` are counted on no side. -/
def sell_side (signals : List StrategySignal) : List StrategySignal :=
  signals.filter (fun s => s.signal == "SELL")

/-- `buy_confidence / buy_votes if buy_votes > 0 else 0` (and its SELL
counterpart) from `aggregate_signals`. -/
def avg_confidence (side : List StrategySignal) : ℚ :=
  if 0 < side.length then (side.map (fun s => s.confidence)).sum / (side.length : ℚ) else 0

/-- `automated_trading.py` `AutomatedTradingEngine.aggregate_signals`.  The
vote loop is rendered by the order-preserving `buy_side`/`sell_side`
filters; the Python literal `0.3` is the threshold 3/10. -/
def aggregate_signals : List StrategySignal → Option StrategySignal
  | [] => none
  | s0 :: rest =>
    let signals := s0 :: rest
    let buys := buy_side signals
    let sells := sell_side signals
    let total_votes : Nat := buys.length + sells.length
    if total_votes = 0 then none
    else
      if sells.length < buys.length ∧ (3 / 10 : ℚ) < avg_confidence buys then
        some { strategy_name := String.intercalate ", " (buys.map (fun s => s.strategy_name)),
               symbol := s0.symbol,
               signal := "BUY",
               price := s0.price,
               timestamp := s0.timestamp,
               confidence := avg_confidence buys * ((buys.length : ℚ) / (total_votes : ℚ)) }
      else if buys.length < sells.length ∧ (3 / 10 : ℚ) < avg_confidence sells then
        some { strategy_name := String.intercalate ", " (sells.map (fun s => s.strategy_name)),
               symbol := s0.symbol,
               signal := "SELL",
               price := s0.price,
               timestamp := s0.timestamp,
               confidence := avg_confidence sells * ((sells.length : ℚ) / (total_votes : ℚ)) }
      else none

/-- The shared skeleton of the `run_*_strategy` generators in
`automated_trading.py`: each wraps its whole body in `try/except` and first
returns `None` when the bar window is shorter than its minimum length.
`min_bars` is that per-generator minimum (15 for RSI, 26 for MACD, ...);
`body` abstracts the indicator computation on the bar window — per the spec
the indicator math is an external black box — and returns `Except.error`
when the Python body would raise. -/
structure StrategyGenerator where
  min_bars : Nat
  body : List ℚ → Except String (Option StrategySignal)

/-- The `try` body of one `run_*_strategy` call: the insufficient-data guard,
then the indicator computation, which may raise. -/
def eval_generator (g : StrategyGenerator) (df : List ℚ) :
    Except String (Option StrategySignal) :=
  if df.length < g.min_bars then Except.ok none else g.body df

/-- One `run_*_strategy` call as seen by its caller: the `except` clause
turns any raised error into `None`. -/
def run_generator (g : StrategyGenerator) (df : List ℚ) : Option StrategySignal :=
  match eval_generator g df with
  | Except.error _ => none
  | Except.ok r => r

/-- `automated_trading.py` `AutomatedTradingEngine.run_strategies`: run each
configured generator on the bar window, appending each emitted vote. -/
def run_strategies (gens : List StrategyGenerator) (df : List ℚ) : List StrategySignal :=
  gens.foldl
    (fun signals g =>
      match run_generator g df with
      | none => signals
      | some s => signals ++ [s])
    []

/-- Python `round(x, 2)`: round to 2 decimal digits, ties to even. -/
def pythonRound2 (x : ℚ) : ℚ :=
  let y := x * 100
  let f : ℤ := ⌊y⌋
  let r := y - f
  let n : ℤ :=
    if (1 / 2 : ℚ) < r then f + 1
    else if r < (1 / 2 : ℚ) then f
    else if f % 2 = 0 then f else f + 1
  (n : ℚ) / 100

/-- The `"portfolio"` section of the dict returned by
`automated_trading.py` `AutomatedTradingEngine.get_results`.  These are all
of its keys; the section records no outcome of the consistency checks. -/
structure ResultsPortfolio where
  initial_capital : ℚ
  realized_pnl : ℚ
  unrealized_pnl : ℚ
  total_charges : ℚ
  total_pnl : ℚ
  final_value : ℚ
  returns_percent : ℚ
  current_capital : ℚ
  invested_capital : ℚ
  open_positions_count : Nat
  closed_positions_count : Nat
  total_brokerage : ℚ
deriving DecidableEq, Repr

/-- The `"performance"` section of the `get_results` dict. -/
structure ResultsPerformance where
  total_trades : Nat
  winning_trades : Nat
  losing_trades : Nat
  win_rate : ℚ
  avg_win : ℚ
  avg_loss : ℚ
  profit_factor : ℚ
deriving DecidableEq, Repr

/-- The parts of the `get_results` report determined by the portfolio
ledger.  The remaining report keys (`config`, `signals`, `executed_trades`,
`daily_pnl`, `equity_curve`) echo the configuration and histories and are
outside every claim. -/
structure Results where
  portfolio : ResultsPortfolio
  performance : ResultsPerformance
deriving DecidableEq, Repr

/-- Steps 2-6 of `get_results`: the first consistency check,
`abs(calculated_total_pnl - total_pnl)` where
`calculated_total_pnl = realized + unrealized - charges` and
`total_pnl = final_value - initial_capital`. -/
def pnl_consistency_error (pf : Portfolio) : ℚ :=
  let realized := pf.realized_pnl
  let unrealized := pf.unrealized_pnl
  let total_charges := pf.total_brokerage_paid
  let final_value := pf.initial_capital + realized + unrealized - total_charges
  let total_pnl := final_value - pf.initial_capital
  |realized + unrealized - total_charges - total_pnl|

/-- The second consistency check of `get_results`:
`abs(final_value - (initial_capital + total_pnl))`. -/
def value_consistency_error (pf : Portfolio) : ℚ :=
  let realized := pf.realized_pnl
  let unrealized := pf.unrealized_pnl
  let total_charges := pf.total_brokerage_paid
  let final_value := pf.initial_capital + realized + unrealized - total_charges
  let total_pnl := final_value - pf.initial_capital
  |final_value - (pf.initial_capital + total_pnl)|

/-- `automated_trading.py` `AutomatedTradingEngine.get_results`, restricted
to the ledger-determined report sections.  A failing consistency check only
prints `[ERROR]` lines; nothing in the returned dict depends on the checks.
Python would raise `ZeroDivisionError` when `initial_capital` is zero
(steps 5); the accompanying theorem assumes it positive. -/
def get_results (pf : Portfolio) : Results :=
  let initial_capital := pf.initial_capital
  let realized := pf.realized_pnl
  let unrealized := pf.unrealized_pnl
  let total_charges := pf.total_brokerage_paid
  let final_value := initial_capital + realized + unrealized - total_charges
  let total_pnl := final_value - initial_capital
  let returns := ((final_value - initial_capital) / initial_capital) * 100
  let closed := pf.closed_positions
  let total_trades := closed.length
  let winning_trades := (closed.filter (fun p => 0 < p.realized_pnl)).length
  let losing_trades := (closed.filter (fun p => p.realized_pnl < 0)).length
  let win_rate : ℚ :=
    if 0 < total_trades then ((winning_trades : ℚ) / (total_trades : ℚ)) * 100 else 0
  let avg_win : ℚ :=
    if 0 < winning_trades then
      ((closed.filter (fun p => 0 < p.realized_pnl)).map Position.realized_pnl).sum
        / (winning_trades : ℚ)
    else 0
  let avg_loss : ℚ :=
    if 0 < losing_trades then
      ((closed.filter (fun p => p.realized_pnl < 0)).map Position.realized_pnl).sum
        / (losing_trades : ℚ)
    else 0
  let profit_factor : ℚ := if avg_loss ≠ 0 then |avg_win / avg_loss| else 0
  { portfolio :=
      { initial_capital := pythonRound2 initial_capital,
        realized_pnl := pythonRound2 realized,
        unrealized_pnl := pythonRound2 unrealized,
        total_charges := pythonRound2 total_charges,
        total_pnl := pythonRound2 total_pnl,
        final_value := pythonRound2 final_value,
        returns_percent := pythonRound2 returns,
        current_capital := pythonRound2 pf.current_capital,
        invested_capital := pythonRound2 pf.invested_capital,
        open_positions_count := pf.positions.length,
        closed_positions_count := total_trades,
        total_brokerage := pythonRound2 pf.total_brokerage_paid },
    performance :=
      { total_trades := total_trades,
        winning_trades := winning_trades,
        losing_trades := losing_trades,
        win_rate := pythonRound2 win_rate,
        avg_win := pythonRound2 avg_win,
        avg_loss := pythonRound2 avg_loss,
        profit_factor := pythonRound2 profit_factor } }

/-- The right-hand side of the spec's accounting identity:
`initial_capital + realized_pnl + unrealized_pnl − total_charges`. -/
def accounting_rhs (pf : Portfolio) : ℚ :=
  pf.initial_capital + pf.realized_pnl + pf.unrealized_pnl - pf.total_brokerage_paid

end PaperTrading

namespace PaperTrading

/-- A fresh engine: capital 1000, no brokerage, no slippage, at most 10
positions, position-size limit 100% of initial capital (so a ₹200 buy is
well inside every limit). -/
def engine0 : Engine :=
  { portfolio :=
      { initial_capital := 1000, current_capital := 1000, positions := [],
        closed_positions := [], brokerage_per_trade := 0, slippage_percent := 0,
        total_brokerage_paid := 0 },
    max_positions := 10, max_position_size := 1 }

/-- `engine0` after `place_order("A", BUY, qty=2, price=100)`. -/
def engine_after_buy : Engine := (engine0.place_order "A" OrderSide.BUY 2 100 none none).1

/-- `engine_after_buy` after the partial `place_order("A", SELL, qty=1,
price=100)`: the order is accepted (1 ≤ 2), the whole 2-share position is
closed, but only 1 share's proceeds are credited. -/
def engine_after_partial_sell : Engine :=
  (engine_after_buy.place_order "A" OrderSide.SELL 1 100 none none).1

/-- The spec's aggregator example: 3 BUY votes (confidences 0.6, 0.7, 0.5)
and 1 SELL vote (confidence 0.9), all for one symbol at one time. -/
def example_votes : List StrategySignal :=
  [{ strategy_name := "RSI", symbol := "NSE:X", signal := "BUY",
     price := 100, timestamp := 1, confidence := 3 / 5 },
   { strategy_name := "MACD", symbol := "NSE:X", signal := "BUY",
     price := 101, timestamp := 1, confidence := 7 / 10 },
   { strategy_name := "ADX", symbol := "NSE:X", signal := "BUY",
     price := 102, timestamp := 1, confidence := 1 / 2 },
   { strategy_name := "ATR", symbol := "NSE:X", signal := "SELL",
     price := 103, timestamp := 1, confidence := 9 / 10 }]

/-- The same four votes as `losing_first_votes`, but a winning-side (BUY)
vote comes first: price 100, timestamp 1. -/
def winning_first_votes : List StrategySignal :=
  [{ strategy_name := "RSI", symbol := "NSE:X", signal := "BUY",
     price := 100, timestamp := 1, confidence := 3 / 5 },
   { strategy_name := "MACD", symbol := "NSE:X", signal := "BUY",
     price := 110, timestamp := 1, confidence := 7 / 10 },
   { strategy_name := "ADX", symbol := "NSE:X", signal := "BUY",
     price := 120, timestamp := 1, confidence := 1 / 2 },
   { strategy_name := "ATR", symbol := "NSE:X", signal := "SELL",
     price := 200, timestamp := 2, confidence := 9 / 10 }]

/-- A permutation of `winning_first_votes` in which the losing-side SELL
vote (price 200, timestamp 2) comes first. -/
def losing_first_votes : List StrategySignal :=
  [{ strategy_name := "ATR", symbol := "NSE:X", signal := "SELL",
     price := 200, timestamp := 2, confidence := 9 / 10 },
   { strategy_name := "RSI", symbol := "NSE:X", signal := "BUY",
     price := 100, timestamp := 1, confidence := 3 / 5 },
   { strategy_name := "MACD", symbol := "NSE:X", signal := "BUY",
     price := 110, timestamp := 1, confidence := 7 / 10 },
   { strategy_name := "ADX", symbol := "NSE:X", signal := "BUY",
     price := 120, timestamp := 1, confidence := 1 / 2 }]

/-- A 15-bar window (the RSI generator's minimum). -/
def bars15 : List ℚ := List.replicate 15 1

/-- A fixed vote, emitted by `ok_generator`. -/
def const_signal : StrategySignal :=
  { strategy_name := "CONST", symbol := "NSE:X", signal := "BUY",
    price := 100, timestamp := 1, confidence := 1 / 2 }

/-- A generator whose indicator body always raises. -/
def err_generator : StrategyGenerator :=
  { min_bars := 15, body := fun _ => Except.error "boom" }

/-- A generator that always votes `const_signal`. -/
def ok_generator : StrategyGenerator :=
  { min_bars := 15, body := fun _ => Except.ok (some const_signal) }

/-- A ledger with one open position (2 shares LONG at 50 marked 55), one
winning and one losing closed trade, and ₹80 of brokerage paid, used to
evaluate `get_results` in full. -/
def report_portfolio : Portfolio :=
  { initial_capital := 1000, current_capital := 850,
    positions :=
      [("NSE:B", { symbol := "NSE:B", side := PositionSide.LONG, quantity := 2,
                   entry_price := 50, current_price := 55, exit_price := none,
                   is_open := true, stop_loss := none, target := none })],
    closed_positions :=
      [{ symbol := "NSE:C", side := PositionSide.LONG, quantity := 1,
         entry_price := 100, current_price := 110, exit_price := some 110,
         is_open := false, stop_loss := none, target := none },
       { symbol := "NSE:D", side := PositionSide.LONG, quantity := 1,
         entry_price := 100, current_price := 95, exit_price := some 95,
         is_open := false, stop_loss := none, target := none }],
    brokerage_per_trade := 20, slippage_percent := 1 / 10,
    total_brokerage_paid := 80 }

/-! ### Association-list lemmas for the positions map -/

theorem find?_eq_none_of_key_not_mem (l : List (String × Position)) (s : String)
    (h : s ∉ l.map Prod.fst) :
    l.find? (fun sp => sp.1 == s) = none := by
  induction l with
  | nil => rfl
  | cons hd tl ih =>
    simp only [List.map_cons, List.mem_cons, not_or] at h
    have hhd : (hd.1 == s) = false := beq_eq_false_iff_ne.mpr (fun hx => h.1 hx.symm)
    simp only [List.find?_cons, hhd]
    exact ih h.2

theorem keys_map_update (l : List (String × Position)) (s : String) (q : Position) :
    (l.map (fun sp => (sp.1, if sp.1 == s then q else sp.2))).map Prod.fst = l.map Prod.fst := by
  induction l with
  | nil => rfl
  | cons hd tl ih =>
    simp only [List.map_cons, ih]

theorem find?_map_update (l : List (String × Position)) (s : String) (q : Position)
    (h : (l.find? (fun sp => sp.1 == s)).isSome = true) :
    ((l.map (fun sp => (sp.1, if sp.1 == s then q else sp.2))).find?
        (fun sp => sp.1 == s)).map (fun sp => sp.2) = some q := by
  induction l with
  | nil => simp at h
  | cons hd tl ih =>
    obtain ⟨k, v⟩ := hd
    by_cases hh : (k == s) = true
    · have hks : k = s := by simpa using hh
      subst hks
      simp [List.find?_cons]
    · have hh' : (k == s) = false := by simpa using hh
      have h' : (tl.find? (fun sp => sp.1 == s)).isSome = true := by
        simpa [List.find?_cons, hh'] using h
      rw [List.map_cons, List.find?_cons]
      dsimp only
      rw [hh']
      exact ih h'

theorem find?_eraseP_none (l : List (String × Position)) (s : String)
    (h : (l.map Prod.fst).Nodup) :
    (l.eraseP (fun sp => sp.1 == s)).find? (fun sp => sp.1 == s) = none := by
  induction l with
  | nil => rfl
  | cons hd tl ih =>
    simp only [List.map_cons, List.nodup_cons] at h
    by_cases hh : (hd.1 == s) = true
    · simp only [List.eraseP_cons, hh, cond_true]
      refine find?_eq_none_of_key_not_mem tl s ?_
      have : hd.1 = s := by simpa using hh
      exact this ▸ h.1
    · have hh' : (hd.1 == s) = false := by simpa using hh
      simp only [List.eraseP_cons, hh', cond_false, List.find?_cons]
      exact ih h.2

theorem length_eraseP_add_one (l : List (String × Position)) (s : String)
    (h : (l.find? (fun sp => sp.1 == s)).isSome = true) :
    l.length = (l.eraseP (fun sp => sp.1 == s)).length + 1 := by
  induction l with
  | nil => simp at h
  | cons hd tl ih =>
    by_cases hh : (hd.1 == s) = true
    · simp [List.eraseP_cons, hh]
    · have hh' : (hd.1 == s) = false := by simpa using hh
      have h' : (tl.find? (fun sp => sp.1 == s)).isSome = true := by
        simpa [List.find?_cons, hh'] using h
      simp only [List.eraseP_cons, hh', cond_false, List.length_cons]
      exact congrArg Nat.succ (ih h')

theorem get_position_isSome_iff (pf : Portfolio) (s : String) :
    (pf.get_position s).isSome = true ↔ pf.has_position s = true := by
  simp [Portfolio.get_position, Portfolio.has_position, List.find?_isSome, List.any_eq_true]

theorem is_open_of_get_position (pf : Portfolio) (s : String) (pos : Position)
    (hwf : ∀ sp ∈ pf.positions, sp.2.is_open = true)
    (h : pf.get_position s = some pos) : pos.is_open = true := by
  unfold Portfolio.get_position at h
  obtain ⟨sp, hfind, hsp⟩ := Option.map_eq_some'.mp h
  exact hsp ▸ hwf sp (List.mem_of_find?_eq_some hfind)

theorem find?_isSome_of_get_position (pf : Portfolio) (s : String) (pos : Position)
    (h : pf.get_position s = some pos) :
    (pf.positions.find? (fun sp => sp.1 == s)).isSome = true := by
  unfold Portfolio.get_position at h
  obtain ⟨sp, hfind, -⟩ := Option.map_eq_some'.mp h
  simp [hfind]

/-- The full effect of a SELL that passes both checks: the whole looked-up
position is closed at the slipped price and moved to the closed list, only
`quantity` shares' proceeds are credited, and one brokerage fee is charged. -/
theorem execute_sell_order_success_eq (e : Engine) (s : String) (q : Int) (price : ℚ)
    (pos : Position) (hwf : e.portfolio.WF)
    (hget : e.portfolio.get_position s = some pos)
    (hq : ¬ pos.quantity < q) :
    e.execute_sell_order s q price =
      ({ e with portfolio :=
          { e.portfolio with
              current_capital := e.portfolio.current_capital
                + e.portfolio.apply_slippage price false * (q : ℚ)
                - e.portfolio.brokerage_per_trade,
              positions :=
                (e.portfolio.positions.map
                  (fun sp => (sp.1, if sp.1 == s then
                    { pos with is_open := false,
                               exit_price := some (e.portfolio.apply_slippage price false) }
                    else sp.2))).eraseP (fun sp => sp.1 == s),
              closed_positions := e.portfolio.closed_positions ++
                [{ pos with is_open := false,
                            exit_price := some (e.portfolio.apply_slippage price false) }],
              total_brokerage_paid := e.portfolio.total_brokerage_paid
                + e.portfolio.brokerage_per_trade } },
       OrderResult.success (e.portfolio.apply_slippage price false) q
         { pos with is_open := false,
                    exit_price := some (e.portfolio.apply_slippage price false) }) := by
  have hopen : pos.is_open = true := is_open_of_get_position _ _ _ hwf.1 hget
  have hsome := find?_isSome_of_get_position _ _ _ hget
  have hclose : pos.close (e.portfolio.apply_slippage price false) =
      some ({ pos with is_open := false,
                       exit_price := some (e.portfolio.apply_slippage price false) },
            Position.realized_pnl
              { pos with is_open := false,
                         exit_price := some (e.portfolio.apply_slippage price false) }) := by
    unfold Position.close
    rw [if_pos hopen]
  have hremove :
      ((e.portfolio.positions.map
        (fun sp => (sp.1, if sp.1 == s then
          { pos with is_open := false,
                     exit_price := some (e.portfolio.apply_slippage price false) }
          else sp.2))).find? (fun sp => sp.1 == s)).map (fun sp => sp.2) =
        some { pos with is_open := false,
                        exit_price := some (e.portfolio.apply_slippage price false) } :=
    find?_map_update _ _ _ hsome
  rw [Option.map_eq_some'] at hremove
  obtain ⟨sp, hfind, hsp⟩ := hremove
  simp only [Engine.execute_sell_order, hget, if_neg hq, hclose]
  simp only [Portfolio.remove_position, Portfolio.get_position, Portfolio.apply_brokerage]
  simp only [hfind, Option.map_some', hsp]

/-- The full effect of a BUY that passes all four checks: cash is debited
by the slipped cost plus brokerage and a LONG position is appended. -/
theorem execute_buy_order_success_eq (e : Engine) (s : String) (q : Int) (price : ℚ)
    (sl tg : Option ℚ)
    (hnopos : e.portfolio.has_position s = false)
    (hmax : ¬ e.max_positions ≤ e.portfolio.positions.length)
    (hsize : ¬ e.portfolio.initial_capital * e.max_position_size <
        e.portfolio.apply_slippage price true * (q : ℚ))
    (hcap : ¬ e.portfolio.current_capital <
        e.portfolio.apply_slippage price true * (q : ℚ) + e.portfolio.brokerage_per_trade) :
    e.execute_buy_order s q price sl tg =
      ({ e with portfolio :=
          { e.portfolio with
              current_capital := e.portfolio.current_capital
                - e.portfolio.apply_slippage price true * (q : ℚ)
                - e.portfolio.brokerage_per_trade,
              positions := e.portfolio.positions ++
                [(s, { symbol := s, side := PositionSide.LONG, quantity := q,
                       entry_price := e.portfolio.apply_slippage price true,
                       current_price := e.portfolio.apply_slippage price true,
                       exit_price := none, is_open := true,
                       stop_loss := sl, target := tg })],
              total_brokerage_paid := e.portfolio.total_brokerage_paid
                + e.portfolio.brokerage_per_trade } },
       OrderResult.success (e.portfolio.apply_slippage price true) q
         { symbol := s, side := PositionSide.LONG, quantity := q,
           entry_price := e.portfolio.apply_slippage price true,
           current_price := e.portfolio.apply_slippage price true,
           exit_price := none, is_open := true, stop_loss := sl, target := tg }) := by
  simp only [Engine.execute_buy_order, hnopos, Bool.false_eq_true, if_false,
             if_neg hmax, if_neg hsize, if_neg hcap,
             Portfolio.apply_brokerage, Portfolio.add_position, Portfolio.has_position]
  simp only [Portfolio.has_position] at hnopos
  simp [hnopos]

/-! ### Claim theorems -/

/-- C6: every `place_order` call that returns a `REJECTED` result leaves the
`Portfolio` ledger untouched — `current_capital`, the open-positions map,
`closed_positions` and `total_brokerage_paid` are those of the pre-call
state; no partial application of the ledger mutations occurs. -/
theorem rejected_order_leaves_portfolio_unchanged
    (e : Engine) (s : String) (side : OrderSide) (q : Int) (price : ℚ) (sl tg : Option ℚ)
    (h : (e.place_order s side q price sl tg).2.isRejected = true) :
    (e.place_order s side q price sl tg).1 = e := by
  rcases hres : e.place_order s side q price sl tg with ⟨e', r⟩
  rw [hres] at h
  show e' = e
  rcases side
  case BUY =>
    simp only [Engine.place_order, Engine.execute_buy_order] at hres
    split_ifs at hres <;>
      (repeat' split at hres) <;>
      (cases hres; first | rfl | simp [OrderResult.isRejected] at h)
  case SELL =>
    simp only [Engine.place_order, Engine.execute_sell_order] at hres
    split_ifs at hres <;>
      (repeat' split at hres) <;>
      (cases hres; first | rfl | simp [OrderResult.isRejected] at h)

/-- C6 witness: a SELL with no open position is rejected and, by the
theorem, leaves the engine exactly as it was. -/
theorem rejected_order_leaves_portfolio_unchanged_witness :
    (engine0.place_order "A" OrderSide.SELL 1 100 none none).2.isRejected = true ∧
    (engine0.place_order "A" OrderSide.SELL 1 100 none none).1 = engine0 :=
  ⟨by with_unfolding_all rfl,
   rejected_order_leaves_portfolio_unchanged engine0 "A" OrderSide.SELL 1 100 none none
     (by with_unfolding_all rfl)⟩

/-- C1: the claimed invariant `portfolio_value = initial_capital +
realized_pnl + unrealized_pnl − total_brokerage_paid` (tolerance 0.01) is
violated by the code on a partial SELL.  With capital 1000 and no fees,
BUY 2 @ 100 then SELL 1 @ 100 both succeed, yet the portfolio value drops
to 900 while the identity's right-hand side stays 1000: `_execute_sell_order`
closes the whole 2-share position but credits proceeds for only 1 share. -/
theorem accounting_identity_broken_by_partial_sell :
    (engine0.place_order "A" OrderSide.BUY 2 100 none none).2.isSuccess = true ∧
    (engine_after_buy.place_order "A" OrderSide.SELL 1 100 none none).2.isSuccess = true ∧
    engine_after_partial_sell.portfolio.portfolio_value = 900 ∧
    accounting_rhs engine_after_partial_sell.portfolio = 1000 ∧
    (1 / 100 : ℚ) < |engine_after_partial_sell.portfolio.portfolio_value -
      accounting_rhs engine_after_partial_sell.portfolio| := by
  have h1 : engine_after_partial_sell.portfolio.portfolio_value = 900 := by
    with_unfolding_all rfl
  have h2 : accounting_rhs engine_after_partial_sell.portfolio = 1000 := by
    with_unfolding_all rfl
  refine ⟨by with_unfolding_all rfl, by with_unfolding_all rfl, h1, h2, ?_⟩
  rw [h1, h2]
  norm_num

/-- C2 counterexample: a successful SELL whose executed quantity (1) does
not equal the held quantity (2) — the claim's "the order's executed
quantity equals the position's held quantity" is false — and the whole
2-share position is nevertheless moved to the closed list. -/
theorem partial_sell_counterexample :
    (engine_after_buy.portfolio.get_position "A").map Position.quantity = some 2 ∧
    (engine_after_buy.place_order "A" OrderSide.SELL 1 100 none none).2.executed_quantity
      = some 1 ∧
    engine_after_partial_sell.portfolio.closed_positions.map Position.quantity = [2] ∧
    (1 : Int) ≠ 2 := by
  refine ⟨by with_unfolding_all rfl, by with_unfolding_all rfl,
          by with_unfolding_all rfl, by decide⟩

/-- C2 (amended): a successful SELL requires only `quantity ≤ held`
(partial quantities are accepted, executed quantity = ordered quantity);
whatever the ordered quantity, the whole looked-up position is closed at
the slipped price and is removed from the open map and appended to
`closed_positions` exactly once. -/
theorem sell_success_closes_whole_position_once
    (e : Engine) (s : String) (q : Int) (price : ℚ) (sl tg : Option ℚ)
    (e' : Engine) (ep : ℚ) (q' : Int) (p : Position)
    (hwf : e.portfolio.WF)
    (h : e.place_order s OrderSide.SELL q price sl tg = (e', OrderResult.success ep q' p)) :
    ∃ pos, e.portfolio.get_position s = some pos ∧
      q' = q ∧ q ≤ pos.quantity ∧
      ep = e.portfolio.apply_slippage price false ∧
      p = { pos with is_open := false, exit_price := some ep } ∧
      e'.portfolio.get_position s = none ∧
      e'.portfolio.closed_positions = e.portfolio.closed_positions ++ [p] ∧
      e.portfolio.positions.length = e'.portfolio.positions.length + 1 := by
  unfold Engine.place_order at h
  split_ifs at h
  · simp at h
  · simp at h
  rcases hget : e.portfolio.get_position s with _ | pos
  · unfold Engine.execute_sell_order at h
    rw [hget] at h
    simp at h
  · by_cases hq : pos.quantity < q
    · unfold Engine.execute_sell_order at h
      rw [hget] at h
      simp only [if_pos hq] at h
      simp at h
    · have heq := execute_sell_order_success_eq e s q price pos hwf hget hq
      rw [heq] at h
      rw [Prod.mk.injEq] at h
      obtain ⟨he, hr⟩ := h
      rw [OrderResult.success.injEq] at hr
      obtain ⟨hep, hq', hp⟩ := hr
      subst he
      subst hep
      subst hq'
      subst hp
      have hsome := find?_isSome_of_get_position _ _ _ hget
      have hupdmap := find?_map_update e.portfolio.positions s
        { pos with is_open := false,
                   exit_price := some (e.portfolio.apply_slippage price false) } hsome
      have hupdsome :
          ((e.portfolio.positions.map
            (fun sp => (sp.1, if sp.1 == s then
              { pos with is_open := false,
                         exit_price := some (e.portfolio.apply_slippage price false) }
              else sp.2))).find? (fun sp => sp.1 == s)).isSome = true := by
        rcases hf : ((e.portfolio.positions.map
            (fun sp => (sp.1, if sp.1 == s then
              { pos with is_open := false,
                         exit_price := some (e.portfolio.apply_slippage price false) }
              else sp.2))).find? (fun sp => sp.1 == s)) with _ | sp
        · rw [hf] at hupdmap; simp at hupdmap
        · rw [hf]; rfl
      have hnodup :
          ((e.portfolio.positions.map
            (fun sp => (sp.1, if sp.1 == s then
              { pos with is_open := false,
                         exit_price := some (e.portfolio.apply_slippage price false) }
              else sp.2))).map Prod.fst).Nodup := by
        rw [keys_map_update]
        exact hwf.2
      refine ⟨pos, rfl, rfl, by omega, rfl, rfl, ?_, rfl, ?_⟩
      · show Portfolio.get_position _ _ = none
        unfold Portfolio.get_position
        rw [find?_eraseP_none _ _ hnodup]
        rfl
      · have hlen := length_eraseP_add_one _ s hupdsome
        calc e.portfolio.positions.length
            = (e.portfolio.positions.map
                (fun sp => (sp.1, if sp.1 == s then
                  { pos with is_open := false,
                             exit_price := some (e.portfolio.apply_slippage price false) }
                  else sp.2))).length := by rw [List.length_map]
          _ = _ := hlen

/-- C2 witness: the amended theorem applied to a full-quantity SELL of the
2-share position of `engine_after_buy`. -/
theorem sell_success_closes_whole_position_once_witness :
    ∃ pos, engine_after_buy.portfolio.get_position "A" = some pos ∧
      (2 : Int) = 2 ∧ (2 : Int) ≤ pos.quantity ∧
      (100 : ℚ) = engine_after_buy.portfolio.apply_slippage 100 false ∧
      ({ symbol := "A", side := PositionSide.LONG, quantity := 2, entry_price := 100,
         current_price := 100, exit_price := some 100, is_open := false,
         stop_loss := none, target := none } : Position)
        = { pos with is_open := false, exit_price := some (100 : ℚ) } ∧
      (engine_after_buy.place_order "A" OrderSide.SELL 2 100 none
          none).1.portfolio.get_position "A" = none ∧
      (engine_after_buy.place_order "A" OrderSide.SELL 2 100 none
          none).1.portfolio.closed_positions =
        engine_after_buy.portfolio.closed_positions ++
          [{ symbol := "A", side := PositionSide.LONG, quantity := 2, entry_price := 100,
             current_price := 100, exit_price := some 100, is_open := false,
             stop_loss := none, target := none }] ∧
      engine_after_buy.portfolio.positions.length =
        (engine_after_buy.place_order "A" OrderSide.SELL 2 100 none
          none).1.portfolio.positions.length + 1 :=
  sell_success_closes_whole_position_once engine_after_buy "A" 2 100 none none
    (engine_after_buy.place_order "A" OrderSide.SELL 2 100 none none).1 100 2
    { symbol := "A", side := PositionSide.LONG, quantity := 2, entry_price := 100,
      current_price := 100, exit_price := some 100, is_open := false,
      stop_loss := none, target := none }
    (by with_unfolding_all decide) (by with_unfolding_all rfl)

/-- C5: `place_order` returns REJECTED exactly when quantity ≤ 0 or
price ≤ 0, or (BUY) a position already exists / the open-position count has
reached the max / the slipped cost exceeds `max_position_size ×
initial_capital` / cash is short of cost + brokerage, or (SELL) no open
position exists / the requested quantity exceeds the held quantity; in all
other cases the result is SUCCESS (never an exception), so a SELL can only
be partial or full, never more than the held quantity. -/
theorem place_order_rejects_iff
    (e : Engine) (s : String) (side : OrderSide) (q : Int) (price : ℚ) (sl tg : Option ℚ)
    (hwf : e.portfolio.WF) :
    ((e.place_order s side q price sl tg).2.isRejected = true ↔
      (q ≤ 0 ∨ price ≤ 0 ∨
       (side = OrderSide.BUY ∧
         (e.portfolio.has_position s = true ∨
          e.max_positions ≤ e.portfolio.positions.length ∨
          e.portfolio.initial_capital * e.max_position_size <
            e.portfolio.apply_slippage price true * (q : ℚ) ∨
          e.portfolio.current_capital <
            e.portfolio.apply_slippage price true * (q : ℚ) +
              e.portfolio.brokerage_per_trade)) ∨
       (side = OrderSide.SELL ∧
         (e.portfolio.get_position s = none ∨
          ∃ pos, e.portfolio.get_position s = some pos ∧ pos.quantity < q)))) ∧
    (e.place_order s side q price sl tg).2.isSuccess
      = !(e.place_order s side q price sl tg).2.isRejected := by
  rcases side
  case BUY =>
    simp only [Engine.place_order]
    by_cases h1 : q ≤ 0
    · rw [if_pos h1]
      exact ⟨⟨fun _ => Or.inl h1, fun _ => rfl⟩, rfl⟩
    · rw [if_neg h1]
      by_cases h2 : price ≤ 0
      · rw [if_pos h2]
        exact ⟨⟨fun _ => Or.inr (Or.inl h2), fun _ => rfl⟩, rfl⟩
      · rw [if_neg h2]
        show ((e.execute_buy_order s q price sl tg).2.isRejected = true ↔ _) ∧ _
        by_cases h3 : e.portfolio.has_position s = true
        · simp only [Engine.execute_buy_order, if_pos h3]
          exact ⟨⟨fun _ => Or.inr (Or.inr (Or.inl ⟨by trivial, Or.inl h3⟩)), fun _ => rfl⟩, rfl⟩
        · by_cases h4 : e.max_positions ≤ e.portfolio.positions.length
          · simp only [Engine.execute_buy_order, if_neg h3, if_pos h4]
            exact ⟨⟨fun _ => Or.inr (Or.inr (Or.inl ⟨by trivial, Or.inr (Or.inl h4)⟩)),
                    fun _ => rfl⟩, rfl⟩
          · by_cases h5 : e.portfolio.initial_capital * e.max_position_size <
                e.portfolio.apply_slippage price true * (q : ℚ)
            · simp only [Engine.execute_buy_order, if_neg h3, if_neg h4, if_pos h5]
              exact ⟨⟨fun _ => Or.inr (Or.inr (Or.inl ⟨by trivial, Or.inr (Or.inr (Or.inl h5))⟩)),
                      fun _ => rfl⟩, rfl⟩
            · by_cases h6 : e.portfolio.current_capital <
                  e.portfolio.apply_slippage price true * (q : ℚ) +
                    e.portfolio.brokerage_per_trade
              · simp only [Engine.execute_buy_order, if_neg h3, if_neg h4, if_neg h5,
                           if_pos h6]
                exact ⟨⟨fun _ => Or.inr (Or.inr (Or.inl
                          ⟨by trivial, Or.inr (Or.inr (Or.inr h6))⟩)), fun _ => rfl⟩, rfl⟩
              · have hb : e.portfolio.has_position s = false := by simpa using h3
                have heq := execute_buy_order_success_eq e s q price sl tg hb h4 h5 h6
                rw [heq]
                refine ⟨⟨fun hx => by simp [OrderResult.isRejected] at hx, fun hP => ?_⟩, rfl⟩
                exfalso
                rcases hP with hc | hc | ⟨-, hc | hc | hc | hc⟩ | ⟨hside, -⟩
                · exact h1 hc
                · exact h2 hc
                · exact h3 hc
                · exact h4 hc
                · exact h5 hc
                · exact h6 hc
                · exact absurd hside (by simp)
  case SELL =>
    simp only [Engine.place_order]
    by_cases h1 : q ≤ 0
    · rw [if_pos h1]
      exact ⟨⟨fun _ => Or.inl h1, fun _ => rfl⟩, rfl⟩
    · rw [if_neg h1]
      by_cases h2 : price ≤ 0
      · rw [if_pos h2]
        exact ⟨⟨fun _ => Or.inr (Or.inl h2), fun _ => rfl⟩, rfl⟩
      · rw [if_neg h2]
        show ((e.execute_sell_order s q price).2.isRejected = true ↔ _) ∧ _
        rcases hget : e.portfolio.get_position s with _ | pos
        · simp only [Engine.execute_sell_order, hget]
          exact ⟨⟨fun _ => Or.inr (Or.inr (Or.inr ⟨by trivial, Or.inl (by trivial)⟩)), fun _ => rfl⟩, rfl⟩
        · by_cases hq : pos.quantity < q
          · simp only [Engine.execute_sell_order, hget, if_pos hq]
            exact ⟨⟨fun _ => Or.inr (Or.inr (Or.inr ⟨by trivial, Or.inr ⟨pos, by trivial, hq⟩⟩)),
                    fun _ => rfl⟩, rfl⟩
          · have heq := execute_sell_order_success_eq e s q price pos hwf hget hq
            rw [heq]
            refine ⟨⟨fun hx => by simp [OrderResult.isRejected] at hx, fun hP => ?_⟩, rfl⟩
            exfalso
            rcases hP with hc | hc | ⟨hside, -⟩ | ⟨-, hc | ⟨pos', hc, hqa⟩⟩
            · exact h1 hc
            · exact h2 hc
            · exact absurd hside (by simp)
            · exact Option.noConfusion hc
            · rw [Option.some.injEq] at hc
              exact hq (hc ▸ hqa)

/-- C5 witness: with no open position, a SELL is rejected — the theorem's
iff applied at a concrete engine. -/
theorem place_order_rejects_iff_witness :
    (engine0.place_order "A" OrderSide.SELL 1 100 none none).2.isRejected = true :=
  (place_order_rejects_iff engine0 "A" OrderSide.SELL 1 100 none none
      (by with_unfolding_all decide)).1.mpr
    (Or.inr (Or.inr (Or.inr ⟨rfl, Or.inl (by with_unfolding_all rfl)⟩)))

/-- C7: P&L formulas — while open, `unrealized_pnl = (mark − entry) × qty`
for LONG and sign-flipped for SHORT and `realized_pnl = 0`; `close` fails on
an already-closed position; a successful `close` fixes
`realized_pnl = (exit − entry) × qty` (sign-flipped for SHORT), and neither
a second `close` nor a later mark-price update can change it. -/
theorem position_pnl_formulas (p : Position) (ex price2 : ℚ) :
    (p.is_open = true → p.side = PositionSide.LONG →
       p.unrealized_pnl = (p.current_price - p.entry_price) * (p.quantity : ℚ)) ∧
    (p.is_open = true → p.side = PositionSide.SHORT →
       p.unrealized_pnl = (p.entry_price - p.current_price) * (p.quantity : ℚ)) ∧
    (p.is_open = true → p.realized_pnl = 0) ∧
    (p.is_open = false → p.close ex = none) ∧
    (∀ p' r, p.close ex = some (p', r) →
       p.is_open = true ∧ p'.is_open = false ∧ p'.exit_price = some ex ∧
       r = p'.realized_pnl ∧
       (p.side = PositionSide.LONG → r = (ex - p.entry_price) * (p.quantity : ℚ)) ∧
       (p.side = PositionSide.SHORT → r = (p.entry_price - ex) * (p.quantity : ℚ)) ∧
       (∀ ex2 : ℚ, p'.close ex2 = none) ∧
       p'.update_price price2 = p' ∧
       (p'.update_price price2).realized_pnl = r) := by
  refine ⟨?_, ?_, ?_, ?_, ?_⟩
  · intro ho hs
    simp [Position.unrealized_pnl, ho, hs]
  · intro ho hs
    simp [Position.unrealized_pnl, ho, hs]
  · intro ho
    simp [Position.realized_pnl, ho]
  · intro ho
    simp [Position.close, ho]
  · intro p' r h
    unfold Position.close at h
    by_cases ho : p.is_open = true
    · rw [if_pos ho] at h
      simp only [Option.some.injEq, Prod.mk.injEq] at h
      obtain ⟨hp', hr⟩ := h
      subst hp'
      subst hr
      refine ⟨ho, rfl, rfl, rfl, ?_, ?_, ?_, ?_, ?_⟩
      · intro hs
        simp [Position.realized_pnl, hs]
      · intro hs
        simp [Position.realized_pnl, hs]
      · intro ex2
        simp [Position.close]
      · simp [Position.update_price]
      · simp [Position.update_price]
    · rw [if_neg ho] at h
      exact Option.noConfusion h

/-- C7 witness: the formulas evaluated on a live LONG 2 @ 50 marked 55 and
its closure at 60. -/
theorem position_pnl_formulas_witness :
    ({ symbol := "W", side := PositionSide.LONG, quantity := 2, entry_price := 50,
       current_price := 55, exit_price := none, is_open := true, stop_loss := none,
       target := none } : Position).unrealized_pnl = (55 - 50) * (2 : ℚ) ∧
    ({ symbol := "W", side := PositionSide.LONG, quantity := 2, entry_price := 50,
       current_price := 55, exit_price := none, is_open := true, stop_loss := none,
       target := none } : Position).realized_pnl = 0 ∧
    (20 : ℚ) = (60 - 50) * (2 : ℚ) := by
  refine ⟨?_, ?_, ?_⟩
  · exact (position_pnl_formulas
      { symbol := "W", side := PositionSide.LONG, quantity := 2, entry_price := 50,
        current_price := 55, exit_price := none, is_open := true, stop_loss := none,
        target := none } 60 0).1 rfl rfl
  · exact (position_pnl_formulas
      { symbol := "W", side := PositionSide.LONG, quantity := 2, entry_price := 50,
        current_price := 55, exit_price := none, is_open := true, stop_loss := none,
        target := none } 60 0).2.2.1 rfl
  · have h := ((position_pnl_formulas
      { symbol := "W", side := PositionSide.LONG, quantity := 2, entry_price := 50,
        current_price := 55, exit_price := none, is_open := true, stop_loss := none,
        target := none } 60 0).2.2.2.2
      { symbol := "W", side := PositionSide.LONG, quantity := 2, entry_price := 50,
        current_price := 55, exit_price := some 60, is_open := false, stop_loss := none,
        target := none } 20 (by with_unfolding_all rfl)).2.2.2.2.1 rfl
    exact h

/-- Each sweep iteration contributes at most one auto order, so the whole
sweep over the snapshot emits at most one order per open position. -/
theorem sweep_fold_length (l : List (String × Position)) :
    ∀ (e : Engine) (acc : List (OrderResult × Engine.Trigger)),
      (l.foldl (fun acc sp =>
          let r := Engine.sweep_step acc.1 sp
          (r.1, acc.2 ++ r.2)) (e, acc)).2.length ≤ acc.length + l.length := by
  induction l with
  | nil =>
    intro e acc
    simp
  | cons hd tl ih =>
    intro e acc
    have hstep : (Engine.sweep_step e hd).2.length ≤ 1 := by
      unfold Engine.sweep_step
      split_ifs <;> simp
    calc ((hd :: tl).foldl (fun acc sp =>
            let r := Engine.sweep_step acc.1 sp
            (r.1, acc.2 ++ r.2)) (e, acc)).2.length
        ≤ (acc ++ (Engine.sweep_step e hd).2).length + tl.length := by
          rw [List.foldl_cons]
          exact ih _ _
      _ ≤ acc.length + (hd :: tl).length := by
          rw [List.length_append, List.length_cons]
          omega

/-- C4: per snapshotted open position, `check_stop_loss_targets` places at
most one automatic SELL per check; the stop-loss branch is evaluated first,
deterministically, so when both conditions hold the stop-loss fires at the
stop price and the target does not; the order's requested price is the
stop-loss (resp. target) price, and the trigger conditions are
LONG: mark ≤ stop / mark ≥ target, SHORT mirrored.  (Every position the
engine creates is LONG, so the SELL is the opposite side.) -/
theorem stop_loss_priority_in_sweep (e : Engine) (sym : String) (pos : Position) :
    (pos.should_trigger_stop_loss = true →
       Engine.sweep_step e (sym, pos) =
         ((e.place_order sym OrderSide.SELL pos.quantity (pos.stop_loss.getD 0) none
             none).1,
          [((e.place_order sym OrderSide.SELL pos.quantity (pos.stop_loss.getD 0) none
              none).2, Engine.Trigger.STOP_LOSS)])) ∧
    (pos.should_trigger_stop_loss = false → pos.should_trigger_target = true →
       Engine.sweep_step e (sym, pos) =
         ((e.place_order sym OrderSide.SELL pos.quantity (pos.target.getD 0) none
             none).1,
          [((e.place_order sym OrderSide.SELL pos.quantity (pos.target.getD 0) none
              none).2, Engine.Trigger.TARGET)])) ∧
    (pos.should_trigger_stop_loss = false → pos.should_trigger_target = false →
       Engine.sweep_step e (sym, pos) = (e, [])) ∧
    (Engine.sweep_step e (sym, pos)).2.length ≤ 1 ∧
    (pos.should_trigger_stop_loss = true → pos.should_trigger_target = true →
       (Engine.sweep_step e (sym, pos)).2.map Prod.snd = [Engine.Trigger.STOP_LOSS]) ∧
    (∀ sl, pos.is_open = true → pos.stop_loss = some sl →
       pos.side = PositionSide.LONG →
       (pos.should_trigger_stop_loss = true ↔ pos.current_price ≤ sl)) ∧
    (∀ sl, pos.is_open = true → pos.stop_loss = some sl →
       pos.side = PositionSide.SHORT →
       (pos.should_trigger_stop_loss = true ↔ sl ≤ pos.current_price)) ∧
    (∀ t, pos.is_open = true → pos.target = some t →
       pos.side = PositionSide.LONG →
       (pos.should_trigger_target = true ↔ t ≤ pos.current_price)) ∧
    (∀ t, pos.is_open = true → pos.target = some t →
       pos.side = PositionSide.SHORT →
       (pos.should_trigger_target = true ↔ pos.current_price ≤ t)) ∧
    (Engine.check_stop_loss_targets e).2.length ≤ e.portfolio.positions.length := by
  refine ⟨?_, ?_, ?_, ?_, ?_, ?_, ?_, ?_, ?_, ?_⟩
  · intro hsl
    unfold Engine.sweep_step
    rw [if_pos hsl]
  · intro hsl ht
    unfold Engine.sweep_step
    rw [if_neg (by simp [hsl]), if_pos ht]
  · intro hsl ht
    unfold Engine.sweep_step
    rw [if_neg (by simp [hsl]), if_neg (by simp [ht])]
  · unfold Engine.sweep_step
    split_ifs <;> simp
  · intro hsl _
    unfold Engine.sweep_step
    rw [if_pos hsl]
    rfl
  · intro sl ho hsl hside
    simp [Position.should_trigger_stop_loss, ho, hsl, hside]
  · intro sl ho hsl hside
    simp [Position.should_trigger_stop_loss, ho, hsl, hside]
  · intro t ho ht hside
    simp [Position.should_trigger_target, ho, ht, hside]
  · intro t ho ht hside
    simp [Position.should_trigger_target, ho, ht, hside]
  · unfold Engine.check_stop_loss_targets
    have h := sweep_fold_length e.portfolio.positions e []
    simpa using h

/-- C4 witness: with mark 90, stop 95, target 80 on a LONG position both
conditions hold and the sweep fires the stop-loss only. -/
theorem stop_loss_priority_in_sweep_witness :
    (Engine.sweep_step engine0
        ("A", { symbol := "A", side := PositionSide.LONG, quantity := 2,
                entry_price := 100, current_price := 90, exit_price := none,
                is_open := true, stop_loss := some 95, target := some 80 })).2.map
      Prod.snd = [Engine.Trigger.STOP_LOSS] :=
  (stop_loss_priority_in_sweep engine0 "A"
      { symbol := "A", side := PositionSide.LONG, quantity := 2,
        entry_price := 100, current_price := 90, exit_price := none,
        is_open := true, stop_loss := some 95, target := some 80 }).2.2.2.2.1
    (by with_unfolding_all rfl) (by with_unfolding_all rfl)

/-- C3: for every non-empty vote list, `aggregate_signals` emits a decision
iff one side's vote count strictly exceeds the other's and that side's
average confidence exceeds 0.3; the emitted confidence is
`average_confidence_of_winning_side × (winning_votes / total_votes)`; ties
or a winning side with average confidence ≤ 0.3 yield no decision.  On the
spec's example — 3 BUY votes (0.6, 0.7, 0.5) and 1 SELL vote (0.9) — the
decision is BUY with confidence (1.8/3) × (3/4) = 0.45. -/
theorem aggregate_majority_confidence_rule :
    (∀ s0 (rest : List StrategySignal),
      ((aggregate_signals (s0 :: rest)).isSome = true ↔
        (((sell_side (s0 :: rest)).length < (buy_side (s0 :: rest)).length ∧
           (3 / 10 : ℚ) < avg_confidence (buy_side (s0 :: rest))) ∨
         ((buy_side (s0 :: rest)).length < (sell_side (s0 :: rest)).length ∧
           (3 / 10 : ℚ) < avg_confidence (sell_side (s0 :: rest))))) ∧
      (∀ d, aggregate_signals (s0 :: rest) = some d →
        (((sell_side (s0 :: rest)).length < (buy_side (s0 :: rest)).length →
           d.signal = "BUY" ∧
           d.confidence = avg_confidence (buy_side (s0 :: rest)) *
             (((buy_side (s0 :: rest)).length : ℚ) /
              ((((buy_side (s0 :: rest)).length +
                  (sell_side (s0 :: rest)).length : Nat)) : ℚ))) ∧
         ((buy_side (s0 :: rest)).length < (sell_side (s0 :: rest)).length →
           d.signal = "SELL" ∧
           d.confidence = avg_confidence (sell_side (s0 :: rest)) *
             (((sell_side (s0 :: rest)).length : ℚ) /
              ((((buy_side (s0 :: rest)).length +
                  (sell_side (s0 :: rest)).length : Nat)) : ℚ)))))) ∧
    (aggregate_signals example_votes).map (fun d => (d.signal, d.confidence)) =
      some ("BUY", 9 / 20) := by
  constructor
  · intro s0 rest
    constructor
    · simp only [aggregate_signals]
      split_ifs with h0 h1 h2
      · simp only [Option.isSome_none, Bool.false_eq_true, false_iff]
        rintro (⟨hlt, -⟩ | ⟨hlt, -⟩) <;> omega
      · simp only [Option.isSome_some, true_iff]
        exact Or.inl h1
      · simp only [Option.isSome_some, true_iff]
        exact Or.inr h2
      · simp only [Option.isSome_none, Bool.false_eq_true, false_iff]
        rintro (hc | hc)
        · exact h1 hc
        · exact h2 hc
    · intro d hd
      simp only [aggregate_signals] at hd
      split_ifs at hd with h0 h1 h2
      · obtain ⟨h1a, -⟩ := h1
        rw [Option.some.injEq] at hd
        subst hd
        exact ⟨fun _ => ⟨rfl, rfl⟩, fun hlt => absurd hlt (by omega)⟩
      · obtain ⟨h2a, -⟩ := h2
        rw [Option.some.injEq] at hd
        subst hd
        exact ⟨fun hlt => absurd hlt (by omega), fun _ => ⟨rfl, rfl⟩⟩
  · with_unfolding_all rfl

/-- C3 witness: the theorem's iff applied to the spec's example vote list
(3 BUY > 1 SELL and average BUY confidence 0.6 > 0.3). -/
theorem aggregate_majority_confidence_rule_witness :
    (aggregate_signals example_votes).isSome = true :=
  (aggregate_majority_confidence_rule.1
      { strategy_name := "RSI", symbol := "NSE:X", signal := "BUY",
        price := 100, timestamp := 1, confidence := 3 / 5 }
      [{ strategy_name := "MACD", symbol := "NSE:X", signal := "BUY",
         price := 101, timestamp := 1, confidence := 7 / 10 },
       { strategy_name := "ADX", symbol := "NSE:X", signal := "BUY",
         price := 102, timestamp := 1, confidence := 1 / 2 },
       { strategy_name := "ATR", symbol := "NSE:X", signal := "SELL",
         price := 103, timestamp := 1, confidence := 9 / 10 }]).1.mpr
    (Or.inl ⟨by with_unfolding_all decide, by with_unfolding_all decide⟩)

/-- C10 (implicit): whenever `aggregate_signals` emits a decision, its
symbol, reference price and timestamp are copied from the first vote of the
input list, whichever side wins; permuting the votes so that a losing-side
SELL vote comes first leaves the direction and confidence unchanged but
changes the emitted price (100 → 200) and timestamp (1 → 2). -/
theorem aggregate_copies_first_vote_fields :
    (∀ s0 (rest : List StrategySignal) d, aggregate_signals (s0 :: rest) = some d →
       d.symbol = s0.symbol ∧ d.price = s0.price ∧ d.timestamp = s0.timestamp) ∧
    (aggregate_signals winning_first_votes).map
        (fun d => (d.signal, d.confidence, d.price, d.timestamp))
      = some ("BUY", 9 / 20, 100, 1) ∧
    (aggregate_signals losing_first_votes).map
        (fun d => (d.signal, d.confidence, d.price, d.timestamp))
      = some ("BUY", 9 / 20, 200, 2) ∧
    winning_first_votes.Perm losing_first_votes := by
  refine ⟨?_, by with_unfolding_all rfl, by with_unfolding_all rfl, ?_⟩
  · intro s0 rest d hd
    simp only [aggregate_signals] at hd
    split_ifs at hd
    · rw [Option.some.injEq] at hd
      subst hd
      exact ⟨rfl, rfl, rfl⟩
    · rw [Option.some.injEq] at hd
      subst hd
      exact ⟨rfl, rfl, rfl⟩
  · with_unfolding_all decide

/-- C10 witness: the universal part applied to the permuted list whose
first vote is the losing SELL: the decision copies its price/timestamp. -/
theorem aggregate_copies_first_vote_fields_witness :
    ∃ d, aggregate_signals losing_first_votes = some d ∧
      d.symbol = "NSE:X" ∧ d.price = 200 ∧ d.timestamp = 2 := by
  rcases hd : aggregate_signals losing_first_votes with _ | d
  · exact absurd hd (by with_unfolding_all decide)
  · have h := aggregate_copies_first_vote_fields.1
      { strategy_name := "ATR", symbol := "NSE:X", signal := "SELL",
        price := 200, timestamp := 2, confidence := 9 / 10 }
      [{ strategy_name := "RSI", symbol := "NSE:X", signal := "BUY",
         price := 100, timestamp := 1, confidence := 3 / 5 },
       { strategy_name := "MACD", symbol := "NSE:X", signal := "BUY",
         price := 110, timestamp := 1, confidence := 7 / 10 },
       { strategy_name := "ADX", symbol := "NSE:X", signal := "BUY",
         price := 120, timestamp := 1, confidence := 1 / 2 }] d hd
    exact ⟨d, rfl, h.1, h.2.1, h.2.2⟩

/-- The `run_strategies` loop, with its accumulator made explicit, collects
exactly the per-generator votes. -/
theorem run_strategies_foldl_acc (gens : List StrategyGenerator) (df : List ℚ) :
    ∀ acc : List StrategySignal,
      gens.foldl (fun signals g =>
        match run_generator g df with
        | none => signals
        | some s => signals ++ [s]) acc
      = acc ++ gens.filterMap (fun g => run_generator g df) := by
  induction gens with
  | nil =>
    intro acc
    simp
  | cons g tl ih =>
    intro acc
    rw [List.foldl_cons, List.filterMap_cons]
    rcases hg : run_generator g df with _ | sig
    · rw [ih acc]
    · rw [ih (acc ++ [sig]), List.append_assoc]
      rfl

/-- C9: a generator whose bar window is shorter than its minimum, or whose
indicator body raises, contributes no vote; `run_strategies` is a total
function equal to the per-generator `filterMap` (no exception escapes), and
dropping a voteless generator leaves the other generators' votes intact. -/
theorem strategy_failure_isolated
    (gens : List StrategyGenerator) (df : List ℚ) (g : StrategyGenerator) :
    (∀ msg, g.body df = Except.error msg → run_generator g df = none) ∧
    (df.length < g.min_bars → run_generator g df = none) ∧
    run_strategies gens df = gens.filterMap (fun g0 => run_generator g0 df) ∧
    (∀ pre post, gens = pre ++ g :: post → run_generator g df = none →
       run_strategies gens df = run_strategies (pre ++ post) df) := by
  refine ⟨?_, ?_, ?_, ?_⟩
  · intro msg hmsg
    unfold run_generator eval_generator
    by_cases hlen : df.length < g.min_bars
    · rw [if_pos hlen]
    · rw [if_neg hlen, hmsg]
  · intro hlen
    unfold run_generator eval_generator
    rw [if_pos hlen]
  · unfold run_strategies
    simpa using run_strategies_foldl_acc gens df []
  · intro pre post hsplit hnone
    subst hsplit
    unfold run_strategies
    rw [run_strategies_foldl_acc, run_strategies_foldl_acc]
    simp [List.filterMap_append, List.filterMap_cons, hnone]

/-- C9 witness: a raising generator next to a voting one — the raising one
contributes nothing, the other's vote is still collected. -/
theorem strategy_failure_isolated_witness :
    err_generator.body bars15 = Except.error "boom" ∧
    run_strategies [err_generator, ok_generator] bars15
      = run_strategies [ok_generator] bars15 ∧
    run_strategies [ok_generator] bars15 = [const_signal] :=
  ⟨rfl,
   (strategy_failure_isolated [err_generator, ok_generator] bars15 err_generator).2.2.2
     [] [ok_generator] rfl
     ((strategy_failure_isolated [err_generator, ok_generator] bars15
        err_generator).1 "boom" rfl),
   by with_unfolding_all rfl⟩

/-- C8 (amended): `get_results` evaluates the two accounting-identity
checks, never raises (for positive initial capital — Python would divide by
zero otherwise) and always returns the report; in exact arithmetic both
check errors are identically 0, so they are always within the 0.01
tolerance, and the returned report's `final_value`/`total_pnl` are the
accounting identity's values.  A failing check would only be printed — the
report (see the counterexample theorem for its full field list) carries no
inconsistency flag. -/
theorem get_results_checks_pass_and_report_returned (pf : Portfolio)
    (_h : 0 < pf.initial_capital) :
    pnl_consistency_error pf = 0 ∧ value_consistency_error pf = 0 ∧
    pnl_consistency_error pf ≤ 1 / 100 ∧ value_consistency_error pf ≤ 1 / 100 ∧
    (get_results pf).portfolio.final_value = pythonRound2 (accounting_rhs pf) ∧
    (get_results pf).portfolio.total_pnl
      = pythonRound2 (accounting_rhs pf - pf.initial_capital) := by
  have h1 : pnl_consistency_error pf = 0 := by
    simp only [pnl_consistency_error]
    have hz : pf.realized_pnl + pf.unrealized_pnl - pf.total_brokerage_paid -
        (pf.initial_capital + pf.realized_pnl + pf.unrealized_pnl -
          pf.total_brokerage_paid - pf.initial_capital) = 0 := by ring
    rw [hz, abs_zero]
  have h2 : value_consistency_error pf = 0 := by
    simp only [value_consistency_error]
    have hz : pf.initial_capital + pf.realized_pnl + pf.unrealized_pnl -
        pf.total_brokerage_paid -
        (pf.initial_capital +
          (pf.initial_capital + pf.realized_pnl + pf.unrealized_pnl -
            pf.total_brokerage_paid - pf.initial_capital)) = 0 := by ring
    rw [hz, abs_zero]
  refine ⟨h1, h2, by rw [h1]; norm_num, by rw [h2]; norm_num, rfl, rfl⟩

/-- C8 witness: the amended theorem applied to the two-trade ledger
`report_portfolio`. -/
theorem get_results_checks_pass_witness :
    pnl_consistency_error report_portfolio = 0 ∧
    value_consistency_error report_portfolio = 0 ∧
    pnl_consistency_error report_portfolio ≤ 1 / 100 ∧
    value_consistency_error report_portfolio ≤ 1 / 100 ∧
    (get_results report_portfolio).portfolio.final_value
      = pythonRound2 (accounting_rhs report_portfolio) ∧
    (get_results report_portfolio).portfolio.total_pnl
      = pythonRound2 (accounting_rhs report_portfolio -
          report_portfolio.initial_capital) :=
  get_results_checks_pass_and_report_returned report_portfolio (by with_unfolding_all decide)

/-- C8 counterexample: the complete report `get_results` returns on the
two-trade ledger `report_portfolio`.  Its portfolio section has exactly the
twelve keys below and its performance section exactly the seven below — no
field records the outcome of the consistency checks, so a report is never
"flagged as inconsistent for the caller": a violation is only printed. -/
theorem get_results_report_carries_no_flag :
    get_results report_portfolio =
      { portfolio :=
          { initial_capital := 1000, realized_pnl := 5, unrealized_pnl := 10,
            total_charges := 80, total_pnl := -65, final_value := 935,
            returns_percent := -13 / 2, current_capital := 850,
            invested_capital := 100, open_positions_count := 1,
            closed_positions_count := 2, total_brokerage := 80 },
        performance :=
          { total_trades := 2, winning_trades := 1, losing_trades := 1,
            win_rate := 50, avg_win := 10, avg_loss := -5, profit_factor := 2 } } := by
  with_unfolding_all rfl

end PaperTrading
